import Mathlib

/-!
Shallow embedding of sublimehq/mmap-example (src/read_mmap.cc,
src/unnamed/part_000, src/unnamed/part_001), the POSIX path.

The program maps a file read-only and reads native-endian signed 64-bit
integers at arbitrary offsets, recovering from SIGBUS (storage vanished
after mapping) via a thread-local sigsetjmp/siglongjmp recovery point.

Modelling choices:
- Mapped memory is a function from byte offset to `Option Nat`:
  `none` means accessing that byte raises SIGBUS (the backing page is gone).
- `size_t` arithmetic is exact: subtraction wraps modulo 2^64
  (`size_t_sub8`), and offsets are reduced modulo 2^64 where the code
  treats them as `size_t`.
- A C `assert` failure, and an unintercepted fault (default signal
  disposition), abort the process: outcomes `Outcome.assertFail` and
  `Outcome.fatal`. A normal return is `Outcome.ok`.
- The body passed to `safe_mmap_try` either completes with a value
  (`some v`) or raises SIGBUS mid-access (`none`).
-/

namespace ReadMmap

/-- Modulus of `size_t` arithmetic (64-bit platform, as targeted by the source). -/
def SIZE_T_MOD : Nat := 2 ^ 64

/-- The value of the C expression `size - sizeof(int64_t)` with `size : size_t`:
unsigned subtraction wrapping modulo 2^64, so for `size < 8` it underflows to a
value near 2^64 instead of failing. -/
def size_t_sub8 (size : Nat) : Nat := (size % SIZE_T_MOD + SIZE_T_MOD - 8) % SIZE_T_MOD

/-- Mapped memory: byte at an offset, or `none` if touching that byte faults
(the backing storage is gone, e.g. the file was truncated after mapping). -/
def Mem : Type := Nat → Option Nat

/-- The `file` struct (src/read_mmap.cc lines 68-70): the byte length captured
at open time and the mapped data. -/
structure file where
  size : Nat
  data : Mem

/-- Result of running a piece of the program: a normal return with a value,
an abort via a failed `assert`, or an abort via an unintercepted fault
(the default disposition of the signal: process termination). -/
inductive Outcome (α : Type) where
  | ok (v : α)
  | assertFail
  | fatal
  deriving DecidableEq

/-- The signal number SIGBUS delivers (7 on Linux); only its being nonzero
matters to `sigsetjmp`. -/
def SIGBUS_NUM : Nat := 7

/-- handle_sigbus (src/read_mmap.cc lines 24-32): given the faulting thread's
`sigbus_jmp_set` flag and the signal number `c`, either intercepts — clears
the flag and siglongjmps `c` back to the recovery point (`some c`) — or, when
the flag is not set, does nothing (`none`), leaving the flag as it was. -/
def handle_sigbus (sigbus_jmp_set : Bool) (c : Nat) : Option Nat × Bool :=
  if sigbus_jmp_set then (some c, false) else (none, sigbus_jmp_set)

/-- safe_mmap_try (src/read_mmap.cc lines 47-66). State threaded explicitly:
the thread's `sigbus_jmp_set` flag on entry, and in the result the returned
`bool`, the value the body produced (if it completed), and the flag on exit.
`assert(!sigbus_jmp_set)` aborts when a recovery point is already active.
Otherwise the flag is set, `sigsetjmp` returns 0 and the body runs: if it
completes, the flag is cleared and `true` returned; if it faults, SIGBUS is
delivered while the flag is set, `handle_sigbus` intercepts and siglongjmps,
`sigsetjmp` returns the nonzero signal, and the else branch clears the flag
and returns `false`. -/
def safe_mmap_try {α : Type} (sigbus_jmp_set : Bool) (fn : Option α) :
    Outcome (Bool × Option α × Bool) :=
  if sigbus_jmp_set then Outcome.assertFail
  else
    match fn with
    | some v => Outcome.ok (true, some v, false)
    | none =>
      match handle_sigbus true SIGBUS_NUM with
      | (some _c, _flag) => Outcome.ok (false, none, false)
      | (none, _flag) => Outcome.fatal

/-- The raw 8-byte load underlying `*(int64_t*)((int8_t*)data + offset)`:
the 8 consecutive bytes starting at `o`, or `none` if any of them faults. -/
def load8 (data : Mem) (o : Nat) : Option (List Nat) :=
  match data o, data (o + 1), data (o + 2), data (o + 3),
        data (o + 4), data (o + 5), data (o + 6), data (o + 7) with
  | some b0, some b1, some b2, some b3, some b4, some b5, some b6, some b7 =>
      some [b0, b1, b2, b3, b4, b5, b6, b7]
  | _, _, _, _, _, _, _, _ => none

/-- Little-endian value of a byte list (the native byte order of the x86-64
Linux target). -/
def leNat : List Nat → Nat
  | [] => 0
  | b :: bs => b + 256 * leNat bs

/-- Two's-complement signed interpretation of a 64-bit value. -/
def toInt64 (n : Nat) : Int :=
  if n % SIZE_T_MOD < 2 ^ 63 then ((n % SIZE_T_MOD : Nat) : Int)
  else ((n % SIZE_T_MOD : Nat) : Int) - (SIZE_T_MOD : Int)

/-- The dereference performed inside the lambda of `file::read`:
`*(int64_t*)((int8_t*)data + offset)` — `none` if the access faults. -/
def deref_int64 (data : Mem) (o : Nat) : Option Int :=
  (load8 data o).map (fun bs => toInt64 (leNat bs))

/-- file::read (src/read_mmap.cc lines 82-89, identical in
src/unnamed/part_001 lines 102-109): `assert(offset <= size - sizeof(int64_t))`
in `size_t` arithmetic, then `safe_mmap_try` around the dereference, storing
the value through `result`. Offsets are `size_t`, hence reduced mod 2^64. -/
def file.read (f : file) (offset : Nat) (sigbus_jmp_set : Bool) :
    Outcome (Bool × Option Int × Bool) :=
  if offset % SIZE_T_MOD ≤ size_t_sub8 f.size then
    safe_mmap_try sigbus_jmp_set (deref_int64 f.data (offset % SIZE_T_MOD))
  else Outcome.assertFail

/-- file::read from src/unnamed/part_000 lines 32-37: the naive straight-line
variant with the same assert but no fault guard — a fault during the
dereference is unintercepted and kills the process. -/
def file.read_unguarded (f : file) (offset : Nat) : Outcome Int :=
  if offset % SIZE_T_MOD ≤ size_t_sub8 f.size then
    match deref_int64 f.data (offset % SIZE_T_MOD) with
    | some v => Outcome.ok v
    | none => Outcome.fatal
  else Outcome.assertFail

/-- What one iteration of main's driver loop prints
(src/unnamed/part_001 lines 220-231). -/
inductive LoopOutput where
  | value (v : Int)
  | failedToRead
  deriving DecidableEq

/-- One iteration of main's driver loop (src/unnamed/part_001 lines 220-231):
call `f->read(offset, &value)`; if it returns true print the value, else print
"Failed to read"; either way the loop continues, so a normal `Outcome.ok`
means the process is still running afterwards. -/
def main_loop_step (f : file) (offset : Nat) (sigbus_jmp_set : Bool) :
    Outcome (LoopOutput × Bool) :=
  match f.read offset sigbus_jmp_set with
  | Outcome.ok (true, some v, flag) => Outcome.ok (LoopOutput.value v, flag)
  | Outcome.ok (true, none, flag) => Outcome.ok (LoopOutput.value 0, flag)
  | Outcome.ok (false, _, flag) => Outcome.ok (LoopOutput.failedToRead, flag)
  | Outcome.assertFail => Outcome.assertFail
  | Outcome.fatal => Outcome.fatal

/-! ## open_file, its syscall trace, and the driver after it -/

/-- The syscalls open_file and the destructor can issue, recorded as a trace
so that resource (file-descriptor) lifetimes are observable. -/
inductive SysCall where
  | statCall
  | openCall
  | mmapCall
  | munmapCall (size : Nat)
  | closeCall
  deriving DecidableEq

/-- The environment open_file runs against: whether `stat64`, `open` and
`mmap` succeed, the size `stat64` reports, and the memory `mmap` maps. -/
structure SysEnv where
  stat_ok : Bool
  st_size : Nat
  open_ok : Bool
  mmap_ok : Bool
  mapped : Mem

/-- open_file (src/read_mmap.cc lines 92-113, POSIX branch of
src/unnamed/part_001 lines 178-199): stat the path, open it read-only, mmap it
`PROT_READ, MAP_PRIVATE`; on any failure return `nullptr` (`none`) at once.
Alongside the result, the trace of syscalls actually issued — note no
`close(fd)` appears on any path. -/
def open_file (env : SysEnv) : Option file × List SysCall :=
  if env.stat_ok = false then (none, [SysCall.statCall])
  else if env.open_ok = false then (none, [SysCall.statCall, SysCall.openCall])
  else if env.mmap_ok = false then
    (none, [SysCall.statCall, SysCall.openCall, SysCall.mmapCall])
  else (some ⟨env.st_size, env.mapped⟩,
        [SysCall.statCall, SysCall.openCall, SysCall.mmapCall])

/-- The destructor of the region: `~file` in src/read_mmap.cc lines 77-79 and
`posix_file::~posix_file` in src/unnamed/part_001 lines 173-176 — it calls
`munmap(data, size)` and nothing else; in particular no `close`. -/
def file.destroy (f : file) : List SysCall := [SysCall.munmapCall f.size]

/-- main after `install_signal_handlers` (src/unnamed/part_001 lines 202-231),
specialized to one loop iteration at a chosen offset: open the file, then —
with no null check — evaluate `f->size` to set up the random distribution and
run the loop body. When open_file returned `nullptr` the very next step,
`f->size`, dereferences a null pointer and the process crashes before any read
is performed; the second component counts the reads performed. -/
def main_after_open (env : SysEnv) (offset : Nat) :
    Outcome (LoopOutput × Bool) × Nat :=
  match (open_file env).1 with
  | none => (Outcome.fatal, 0)
  | some f => (main_loop_step f offset false, 1)

/-! ## Thread-indexed model of the same code

`sigbus_jmp_set` is declared `thread_local` (src/read_mmap.cc line 21), so the
process state is one flag per thread; these definitions are the same code with
the flag store indexed by the id of the thread executing it. -/

/-- The per-thread `sigbus_jmp_set` flags: thread id to flag. -/
def Flags : Type := Nat → Bool

/-- handle_sigbus as executed on faulting thread `t`: it reads and clears
`sigbus_jmp_set` of the thread the signal was delivered to — `thread_local`
storage — and no other thread's. -/
def handle_sigbus_mt (flags : Flags) (t : Nat) (c : Nat) : Option Nat × Flags :=
  if flags t then (some c, fun u => if u = t then false else flags u)
  else (none, flags)

/-- safe_mmap_try executed by thread `t`: identical control flow to
`safe_mmap_try`, with every access to `sigbus_jmp_set` going to thread `t`'s
slot of the flag store (first set to true when arming, then cleared on either
exit path; a fault is handled by `handle_sigbus_mt` on the faulting thread). -/
def safe_mmap_try_mt {α : Type} (flags : Flags) (t : Nat) (fn : Option α) :
    Outcome (Bool × Option α × Flags) :=
  if flags t then Outcome.assertFail
  else
    match fn with
    | some v =>
      Outcome.ok (true, some v,
        fun u => if u = t then false else (if u = t then true else flags u))
    | none =>
      match handle_sigbus_mt (fun u => if u = t then true else flags u) t SIGBUS_NUM with
      | (some _c, after) =>
        Outcome.ok (false, none, fun u => if u = t then false else after u)
      | (none, _after) => Outcome.fatal

/-- file::read executed by thread `t` over the thread-indexed flag store. -/
def file.read_mt (f : file) (offset : Nat) (flags : Flags) (t : Nat) :
    Outcome (Bool × Option Int × Flags) :=
  if offset % SIZE_T_MOD ≤ size_t_sub8 f.size then
    safe_mmap_try_mt flags t (deref_int64 f.data (offset % SIZE_T_MOD))
  else Outcome.assertFail

/-! ## Concrete fixtures -/

/-- A fully backed 16-byte mapping holding the little-endian encoding of 42
followed by 8 zero bytes (the scenario of the spec). -/
def file16 : file :=
  ⟨16, fun i => if i < 16 then (if i = 0 then some 42 else some 0) else none⟩

/-- A mapping opened at 16 bytes whose backing file was truncated to 8 bytes
afterwards: bytes 8..15 now fault. -/
def truncFile : file :=
  ⟨16, fun i => if i < 8 then some 0 else none⟩

/-- A mapping of an empty file: size 0, every access faults. -/
def emptyFile : file := ⟨0, fun _ => none⟩

/-- Every byte inside the region is backed (no truncation happened). -/
abbrev FullyBacked (f : file) : Prop :=
  ∀ i, i < f.size → (f.data i).isSome = true

/-- Delivery of a SIGBUS raised by code outside any guarded read, on a thread
whose `sigbus_jmp_set` flag is as given: `handle_sigbus` runs; if it declines
to intercept (flag unset), the fault is not swallowed and the process never
continues past the faulting access — the fatal default consequence of the
fault applies. -/
def sigbus_outside_guard (sigbus_jmp_set : Bool) (c : Nat) : Outcome Unit :=
  match handle_sigbus sigbus_jmp_set c with
  | (some _r, _flag) => Outcome.ok ()
  | (none, _flag) => Outcome.fatal

/-- A flag store in which every thread except thread 0 has an active recovery
point, used to exhibit that thread 0's reads ignore other threads' state. -/
def flagsW : Flags := fun u => u != 0

/-- An environment in which stat, open and mmap all succeed, mapping the
bytes of `file16`. -/
def envOK : SysEnv := ⟨true, 16, true, true, file16.data⟩

/-! ## Helper lemmas -/

/-- For a size of at least 8 (and below 2^64) the C bounds expression is the
expected `size - 8`. -/
theorem size_t_sub8_of_le (s : Nat) (h8 : 8 ≤ s) (hM : s < SIZE_T_MOD) :
    size_t_sub8 s = s - 8 := by
  unfold size_t_sub8
  rw [Nat.mod_eq_of_lt hM]
  have h : s + SIZE_T_MOD - 8 = (s - 8) + SIZE_T_MOD := by omega
  rw [h, Nat.add_mod_right, Nat.mod_eq_of_lt (by omega)]

/-- A read whose bounds check passes, over a dereference that completes,
returns success with that value and a cleared flag. -/
theorem read_ok_of_deref_some (f : file) (o : Nat) (v : Int)
    (hb : o % SIZE_T_MOD ≤ size_t_sub8 f.size)
    (hv : deref_int64 f.data (o % SIZE_T_MOD) = some v) :
    f.read o false = Outcome.ok (true, some v, false) := by
  simp [file.read, if_pos hb, hv, safe_mmap_try]

/-- A read whose bounds check passes, over a dereference that faults, returns
failure (`ReadFault`) with a cleared flag. -/
theorem read_fault_of_deref_none (f : file) (o : Nat)
    (hb : o % SIZE_T_MOD ≤ size_t_sub8 f.size)
    (hn : deref_int64 f.data (o % SIZE_T_MOD) = none) :
    f.read o false = Outcome.ok (false, none, false) := by
  simp [file.read, if_pos hb, hn, safe_mmap_try, handle_sigbus]

/-- On a fully backed region every in-bounds 8-byte load completes. -/
theorem load8_of_backed (f : file) (o : Nat) (hfb : FullyBacked f)
    (ho : o + 8 ≤ f.size) : ∃ bs, load8 f.data o = some bs := by
  obtain ⟨b0, e0⟩ := Option.isSome_iff_exists.mp (hfb o (by omega))
  obtain ⟨b1, e1⟩ := Option.isSome_iff_exists.mp (hfb (o + 1) (by omega))
  obtain ⟨b2, e2⟩ := Option.isSome_iff_exists.mp (hfb (o + 2) (by omega))
  obtain ⟨b3, e3⟩ := Option.isSome_iff_exists.mp (hfb (o + 3) (by omega))
  obtain ⟨b4, e4⟩ := Option.isSome_iff_exists.mp (hfb (o + 4) (by omega))
  obtain ⟨b5, e5⟩ := Option.isSome_iff_exists.mp (hfb (o + 5) (by omega))
  obtain ⟨b6, e6⟩ := Option.isSome_iff_exists.mp (hfb (o + 6) (by omega))
  obtain ⟨b7, e7⟩ := Option.isSome_iff_exists.mp (hfb (o + 7) (by omega))
  exact ⟨[b0, b1, b2, b3, b4, b5, b6, b7],
    by simp [load8, e0, e1, e2, e3, e4, e5, e6, e7]⟩

/-! ## Claim theorems -/

/-- C1: for every offset `o` with `o + 8 ≤ size` on a stable, fully-backed
mapping (of size at least 8 and below 2^64), the guarded read
(`file::read` via `safe_mmap_try`) returns success and the returned value is
the 8 bytes at `o` interpreted as a native-endian (little-endian)
two's-complement signed 64-bit integer; the concrete 16-byte scenario is the
witness below. -/
theorem C1_guarded_read_correct (f : file) (o : Nat)
    (h8 : 8 ≤ f.size) (hM : f.size < SIZE_T_MOD)
    (ho : o + 8 ≤ f.size) (hfb : FullyBacked f) :
    ∃ bs, load8 f.data o = some bs ∧
      f.read o false = Outcome.ok (true, some (toInt64 (leNat bs)), false) := by
  obtain ⟨bs, hbs⟩ := load8_of_backed f o hfb ho
  have hoM : o % SIZE_T_MOD = o := Nat.mod_eq_of_lt (by omega)
  have hb : o % SIZE_T_MOD ≤ size_t_sub8 f.size := by
    rw [hoM, size_t_sub8_of_le f.size h8 hM]; omega
  have hv : deref_int64 f.data (o % SIZE_T_MOD) = some (toInt64 (leNat bs)) := by
    rw [hoM]; simp [deref_int64, hbs]
  exact ⟨bs, hbs, read_ok_of_deref_some f o _ hb hv⟩

/-- Witness for C1: the 16-byte file holding the little-endian encoding of 42
followed by 8 zero bytes; reading at offset 0 yields 42 and at offset 8
yields 0. -/
theorem C1_witness :
    (∃ bs, load8 file16.data 0 = some bs ∧
      file16.read 0 false = Outcome.ok (true, some (toInt64 (leNat bs)), false)) ∧
    file16.read 0 false = Outcome.ok (true, some 42, false) ∧
    file16.read 8 false = Outcome.ok (true, some 0, false) :=
  ⟨C1_guarded_read_correct file16 0 (by decide) (by decide) (by decide) (by decide),
   by decide, by decide⟩

/-- C2: whenever a guarded read is entered with `sigbus_jmp_set` false (as
its assert demands) and returns normally — success or recovered fault alike —
the flag it leaves behind is false, so a subsequent guarded read on the same
thread starts from a clean flag. -/
theorem C2_flag_false_after_read (f : file) (o : Nat)
    (res : Bool × Option Int × Bool)
    (h : f.read o false = Outcome.ok res) : res.2.2 = false := by
  by_cases hb : o % SIZE_T_MOD ≤ size_t_sub8 f.size
  · cases hd : deref_int64 f.data (o % SIZE_T_MOD) with
    | none =>
      rw [read_fault_of_deref_none f o hb hd] at h
      obtain rfl := (Outcome.ok.inj h).symm
      rfl
    | some v =>
      rw [read_ok_of_deref_some f o v hb hd] at h
      obtain rfl := (Outcome.ok.inj h).symm
      rfl
  · rw [file.read, if_neg hb] at h
    exact Outcome.noConfusion h

/-- Witness for C2: a faulting read on the truncated region ends with the
flag false, and a second read on the same thread, entered with that flag,
succeeds on valid data. -/
theorem C2_witness :
    truncFile.read 8 false = Outcome.ok (false, none, false) ∧
    ((false, (none : Option Int), false) : Bool × Option Int × Bool).2.2 = false ∧
    file16.read 0 false = Outcome.ok (true, some 42, false) :=
  ⟨by decide, C2_flag_false_after_read truncFile 8 (false, none, false) (by decide),
   by decide⟩

/-- C3: when the dereference inside a bounds-passing guarded read faults
(backing storage gone after mapping), `file::read` returns `false`
(`ReadFault`) as an ordinary value — not `assertFail`, not a fatal abort —
and the driver loop iteration reports "Failed to read" and continues as a
normal step. -/
theorem C3_fault_returns_value (f : file) (o : Nat)
    (hb : o % SIZE_T_MOD ≤ size_t_sub8 f.size)
    (hf : deref_int64 f.data (o % SIZE_T_MOD) = none) :
    f.read o false = Outcome.ok (false, none, false) ∧
    main_loop_step f o false = Outcome.ok (LoopOutput.failedToRead, false) := by
  have hr := read_fault_of_deref_none f o hb hf
  exact ⟨hr, by simp [main_loop_step, hr]⟩

/-- Witness for C3: the 16-byte region truncated to 8 bytes, read at
offset 8. -/
theorem C3_witness :
    truncFile.read 8 false = Outcome.ok (false, none, false) ∧
    main_loop_step truncFile 8 false = Outcome.ok (LoopOutput.failedToRead, false) :=
  C3_fault_returns_value truncFile 8 (by decide) (by decide)

/-- C4: the claim fails on the code for `size < 8`. The bounds expression
`size - sizeof(int64_t)` underflows in `size_t` arithmetic: for the mapped
empty file it is 2^64 - 8, the assert passes for offset 0, the dereference IS
attempted and the fault-recovery machinery IS engaged, returning `ReadFault`
instead of raising the bounds violation. For sizes of at least 8 the claimed
behavior does hold: offset 9 on the 16-byte file fails the assert. -/
theorem C4_bounds_check_underflows :
    size_t_sub8 emptyFile.size = SIZE_T_MOD - 8 ∧
    emptyFile.read 0 false = Outcome.ok (false, none, false) ∧
    file16.read 9 false = Outcome.assertFail :=
  ⟨by decide, by decide, by decide⟩

/-- C5: when a fault is delivered on a thread with no active recovery point,
`handle_sigbus` does not intercept — it leaves the flag untouched and performs
no jump — so the fault is not swallowed and its default fatal consequence
applies: the process never continues past the faulting access. -/
theorem C5_unguarded_fault_not_intercepted (c : Nat) :
    handle_sigbus false c = (none, false) ∧
    sigbus_outside_guard false c = Outcome.fatal :=
  ⟨rfl, rfl⟩

/-- C6: invoking a guarded read while a recovery point is already active on
the same thread trips `assert(!sigbus_jmp_set)` — a fail-fast abort, never the
recoverable `ReadFault` (`Outcome.ok (false, ..)`) result. -/
theorem C6_nested_guard_fails_fast (f : file) (o : Nat) (fn : Option Int) :
    safe_mmap_try true fn = Outcome.assertFail ∧
    f.read o true = Outcome.assertFail := by
  refine ⟨rfl, ?_⟩
  rw [file.read]
  split
  · rfl
  · rfl

/-- C7: on every fault-free execution whose bounds check passes, the guarded
variant of `file::read` (src/read_mmap.cc) returns exactly the value that the
naive straight-line variant (src/unnamed/part_000) returns at the same offset
of the same region — the fault-recovery wrapping does not change fault-free
results. -/
theorem C7_guarded_refines_unguarded (f : file) (o : Nat) (v : Int)
    (hb : o % SIZE_T_MOD ≤ size_t_sub8 f.size)
    (hv : deref_int64 f.data (o % SIZE_T_MOD) = some v) :
    f.read o false = Outcome.ok (true, some v, false) ∧
    f.read_unguarded o = Outcome.ok v := by
  refine ⟨read_ok_of_deref_some f o v hb hv, ?_⟩
  simp [file.read_unguarded, if_pos hb, hv]

/-- Witness for C7: both variants read 42 at offset 0 of the 16-byte file. -/
theorem C7_witness :
    file16.read 0 false = Outcome.ok (true, some 42, false) ∧
    file16.read_unguarded 0 = Outcome.ok 42 :=
  C7_guarded_refines_unguarded file16 0 42 (by decide) (by decide)

/-- C8: whenever stat, open or mmap fails, open_file surfaces the failure to
the caller as a null result, its syscall trace shows no retry (each syscall
is issued at most once), and the program is over: main crashes on the null
region before performing a single read. -/
theorem C8_open_failure_is_fatal (env : SysEnv) (o : Nat)
    (h : env.stat_ok = false ∨ env.open_ok = false ∨ env.mmap_ok = false) :
    (open_file env).1 = none ∧
    (open_file env).2.Nodup ∧
    main_after_open env o = (Outcome.fatal, 0) := by
  obtain ⟨s, sz, op, mm, mem⟩ := env
  cases s
  · refine ⟨rfl, ?_, rfl⟩
    show List.Nodup [SysCall.statCall]
    decide
  · cases op
    · refine ⟨rfl, ?_, rfl⟩
      show List.Nodup [SysCall.statCall, SysCall.openCall]
      decide
    · cases mm
      · refine ⟨rfl, ?_, rfl⟩
        show List.Nodup [SysCall.statCall, SysCall.openCall, SysCall.mmapCall]
        decide
      · simp at h

/-- Witness for C8: an environment in which stat fails. -/
theorem C8_witness :
    (open_file ⟨false, 0, true, true, fun _ => none⟩).1 = none ∧
    (open_file ⟨false, 0, true, true, fun _ => none⟩).2.Nodup ∧
    main_after_open ⟨false, 0, true, true, fun _ => none⟩ 0 = (Outcome.fatal, 0) :=
  C8_open_failure_is_fatal ⟨false, 0, true, true, fun _ => none⟩ 0 (Or.inl rfl)

/-- C9: a guarded read by thread `t` whose own flag is clear succeeds with the
correct value regardless of every other thread's recovery state, leaves its
own flag false and every other thread's flag exactly as it was; and the fault
handler's interception decision for a fault on thread `t` reads only thread
`t`'s flag — with `t`'s flag clear it never intercepts, and it never writes
another thread's slot. -/
theorem C9_threads_do_not_interfere (flags : Flags) (t u c : Nat)
    (f : file) (o : Nat) (v : Int)
    (ht : flags t = false) (hu : u ≠ t)
    (hb : o % SIZE_T_MOD ≤ size_t_sub8 f.size)
    (hv : deref_int64 f.data (o % SIZE_T_MOD) = some v) :
    (∃ flags2, f.read_mt o flags t = Outcome.ok (true, some v, flags2) ∧
        flags2 t = false ∧ flags2 u = flags u) ∧
    (handle_sigbus_mt flags t c).2 u = flags u ∧
    (handle_sigbus_mt flags t c).1 = none := by
  refine ⟨⟨fun w => if w = t then false else (if w = t then true else flags w),
      ?_, by simp, by simp [hu]⟩, ?_, ?_⟩
  · simp [file.read_mt, if_pos hb, hv, safe_mmap_try_mt, ht]
  · simp [handle_sigbus_mt, ht]
  · simp [handle_sigbus_mt, ht]

/-- Witness for C9: thread 0 reads offset 0 of the 16-byte file while every
other thread (thread 1 in particular) has an active recovery point. -/
theorem C9_witness :
    (∃ flags2, file16.read_mt 0 flagsW 0 = Outcome.ok (true, some 42, flags2) ∧
        flags2 0 = false ∧ flags2 1 = flagsW 1) ∧
    (handle_sigbus_mt flagsW 0 7).2 1 = flagsW 1 ∧
    (handle_sigbus_mt flagsW 0 7).1 = none :=
  C9_threads_do_not_interfere flagsW 0 1 7 file16 0 42 rfl (by decide)
    (by decide) (by decide)

/-- C10: every successful open_file call issues open(2) but no close on any
path, and the destructor of the region only munmaps — the descriptor is
leaked for the life of the process. -/
theorem C10_fd_never_closed (env : SysEnv) (f : file)
    (h : (open_file env).1 = some f) :
    SysCall.openCall ∈ (open_file env).2 ∧
    SysCall.closeCall ∉ (open_file env).2 ∧
    SysCall.closeCall ∉ f.destroy := by
  obtain ⟨s, sz, op, mm, mem⟩ := env
  cases s <;> cases op <;> cases mm <;>
    simp_all [open_file, file.destroy]

/-- Witness for C10: a successful open of the 16-byte file. -/
theorem C10_witness :
    SysCall.openCall ∈ (open_file envOK).2 ∧
    SysCall.closeCall ∉ (open_file envOK).2 ∧
    SysCall.closeCall ∉ (file.mk 16 file16.data).destroy :=
  C10_fd_never_closed envOK (file.mk 16 file16.data) rfl

end ReadMmap
